import Mathlib

/-!
Shallow embedding of the road-accident resource-allocation script
(src/OFS_CODE.py).  The script scores districts by a weighted severity
formula, builds an integer program with hard-coded policy constants,
solves it with an external ILP backend, and aggregates the solved
variable values into an output table.  Counts are natural numbers,
numeric computation is over ℚ (the Python floats 0.5, 0.3, 0.2 are the
exact rationals 1/2, 3/10, 1/5 in the idealized arithmetic); a float
NaN arising from division by a zero column maximum is modelled as
`none` in an `Option ℚ`.
-/

namespace OFS

/-- One row of the input table: district name and the three raw counts
(columns District, Accidents, Killed, Injured). -/
structure Row where
  district : String
  accidents : ℕ
  killed : ℕ
  injured : ℕ
deriving DecidableEq, Repr

/-- The input table, one row per district; the pandas RangeIndex is the
position in the list. -/
abbrev Table := List Row

/-- Maximum of a count column, as pandas .max() over the column
(0 for the empty table). -/
def colMax (f : Row → ℕ) (t : Table) : ℕ :=
  (t.map f).foldr max 0

/-- Division as the script's float division behaves on this data: every
numerator is bounded by the column maximum, so a zero denominator means
0/0, which is float NaN — modelled as `none`. -/
def ndiv (a b : ℚ) : Option ℚ :=
  if b = 0 then none else some (a / b)

/-- Value of the weighted severity when no denominator is zero
(line 14-16 of the script):
0.5*(killed/max killed) + 0.3*(injured/max injured) + 0.2*(accidents/max accidents). -/
def sevQ (t : Table) (r : Row) : ℚ :=
  1/2 * ((r.killed : ℚ) / (colMax Row.killed t : ℚ)) +
  3/10 * ((r.injured : ℚ) / (colMax Row.injured t : ℚ)) +
  1/5 * ((r.accidents : ℚ) / (colMax Row.accidents t : ℚ))

/-- The severity scorer of lines 14-16, with NaN propagation: if any
count column has maximum 0 the division is 0/0 = NaN and the whole
weighted sum is NaN (`none`). -/
def weightedSeverity (t : Table) (r : Row) : Option ℚ :=
  match ndiv (r.killed : ℚ) (colMax Row.killed t : ℚ),
        ndiv (r.injured : ℚ) (colMax Row.injured t : ℚ),
        ndiv (r.accidents : ℚ) (colMax Row.accidents t : ℚ) with
  | some k, some j, some a => some (1/2 * k + 3/10 * j + 1/5 * a)
  | _, _, _ => none

/-- Severity of the row at position i (used as the sort key and as the
objective coefficient for both resource types, lines 19-20). -/
def sevAt (t : Table) (i : ℕ) : ℚ :=
  sevQ t (t.getD i ⟨"", 0, 0, 0⟩)

/-- Cost per police unit deployment (line 30). -/
def cost_x : ℕ := 5

/-- Cost per awareness campaign (line 31). -/
def cost_z : ℕ := 2

/-- Total budget in lakhs (line 32). -/
def budget : ℕ := 1800

/-- Total police units available (line 35). -/
def X_max : ℕ := 250

/-- Total awareness campaigns available (line 36). -/
def Z_max : ℕ := 350

/-- Max combined allocation per high-risk district except Jaipur (line 37). -/
def District_Limit : ℕ := 30

/-- Individual police upper bound of the Jaipur row (line 59). -/
def Jaipur_Max_Police : ℕ := 50

/-- Individual awareness upper bound of the Jaipur row (line 60). -/
def Jaipur_Max_Awareness : ℕ := 40

/-- Individual police lower bound of the Jaipur row (line 61). -/
def Jaipur_Min_Police : ℕ := 40

/-- Individual awareness lower bound of the Jaipur row (line 62). -/
def Jaipur_Min_Awareness : ℕ := 30

/-- General per-district police cap, applied to every district including
Jaipur (line 66). -/
def Max_Police_Per_District : ℕ := 50

/-- General per-district awareness cap, applied to every district
including Jaipur (line 67). -/
def Max_Awareness_Per_District : ℕ := 40

/-- Index of the first row whose District column equals Jaipur, as the
required lookup of line 52; `none` models the IndexError raised there
when the lookup result is empty. -/
def jaipurIdx (t : Table) : Option ℕ :=
  t.findIdx? (fun r => r.district = "Jaipur")

/-- Row positions sorted by Weighted_Severity descending (line 51).
The script calls pandas sort_values with its default quicksort kind;
for tables up to the 16-element insertion-sort cutoff of numpy the
realized order is a stable descending sort (pandas reverses the array,
argsorts ascending, and reverses the result), which this insertion
sort renders; above that cutoff the order of exact ties is not
guaranteed by the library.  No theorem below about this list depends
on the order of ties: they use only that it is a permutation of the
positions. -/
def sortedIdx (t : Table) : List ℕ :=
  List.insertionSort (fun i j => sevAt t j ≤ sevAt t i) (List.range t.length)

/-- The top five rows by severity: head(5) of the sorted table (line 51). -/
def top5 (t : Table) : List ℕ :=
  (sortedIdx t).take 5

/-- The priority set: the top five with the Jaipur row filtered out
(line 53); no further row is promoted to replace it. -/
def top5ExclJaipur (t : Table) (j : ℕ) : List ℕ :=
  (top5 t).filter (fun i => i ≠ j)

/-- Sum of a function over the row positions of the table, as lpSum
over df.index. -/
def idxSum (t : Table) (f : ℕ → ℕ) : ℕ :=
  ((List.range t.length).map f).sum

/-- The constraint set of the integer program (lines 44-67), as a
predicate on an assignment x (police) and z (awareness) of non-negative
integers to row positions, with j the Jaipur row. -/
structure FeasibleAlloc (t : Table) (j : ℕ) (x z : ℕ → ℕ) : Prop where
  budget_le : idxSum t (fun i => cost_x * x i + cost_z * z i) ≤ budget
  police_total : idxSum t x ≤ X_max
  awareness_total : idxSum t z ≤ Z_max
  top5_min : ∀ i ∈ top5ExclJaipur t j, 1 ≤ x i + z i
  top5_max : ∀ i ∈ top5ExclJaipur t j, x i + z i ≤ District_Limit
  jaipur_police_max : x j ≤ Jaipur_Max_Police
  jaipur_awareness_max : z j ≤ Jaipur_Max_Awareness
  jaipur_police_min : Jaipur_Min_Police ≤ x j
  jaipur_awareness_min : Jaipur_Min_Awareness ≤ z j
  district_police_cap : ∀ i < t.length, x i ≤ Max_Police_Per_District
  district_awareness_cap : ∀ i < t.length, z i ≤ Max_Awareness_Per_District

/-- Failure mode of model construction: the Jaipur lookup of line 52
raises (IndexError in the script) when no row is named Jaipur, so no
model is produced. -/
inductive BuildError where
  | infeasibleSpecificationError
deriving DecidableEq, Repr

/-- The data the model builder derives from the table: the Jaipur row
and the priority set; together with `FeasibleAlloc` these determine the
constraint set. -/
structure IlpModel where
  jaipur : ℕ
  priority : List ℕ
deriving DecidableEq, Repr

/-- Model construction (lines 22-67): fails at the required Jaipur
lookup when the district is absent, producing no model. -/
def buildModel (t : Table) : Except BuildError IlpModel :=
  match jaipurIdx t with
  | none => Except.error BuildError.infeasibleSpecificationError
  | some j => Except.ok ⟨j, top5ExclJaipur t j⟩

/-- Solver status as reported by the backend (contract of the external
solve call of line 70). -/
inductive LpStatus where
  | Optimal
  | Infeasible
  | Unbounded
  | NotSolved
  | Undefined
deriving DecidableEq, Repr

/-- What the solve call leaves behind: a status and the variable values
the backend stored, meaningful only when the status is Optimal. -/
structure SolveResult where
  status : LpStatus
  xVal : ℕ → ℤ
  zVal : ℕ → ℤ

/-- Post-solve result collection (lines 73-74): the script reads every
varValue into the allocation columns directly after solve returns. -/
def collectResults (t : Table) (res : SolveResult) : List ℤ × List ℤ :=
  (((List.range t.length).map res.xVal), ((List.range t.length).map res.zVal))

/-- Per-district total impact score (line 75):
police * severity + awareness * severity. -/
def totalImpact (t : Table) (x z : ℕ → ℕ) (i : ℕ) : ℚ :=
  (x i : ℚ) * sevAt t i + (z i : ℚ) * sevAt t i

/-- Column maximum of the total impact scores (line 76); all impacts are
non-negative, so the 0 seed does not change the maximum of a nonempty
column. -/
def maxImpact (t : Table) (x z : ℕ → ℕ) : ℚ :=
  ((List.range t.length).map (totalImpact t x z)).foldr max 0

/-- Normalized impact percentage (line 76):
100 * impact / max impact, NaN (modelled `none`) when the maximum is 0,
since then every impact is 0 and the division is 0/0. -/
def normalizedImpact (t : Table) (x z : ℕ → ℕ) (i : ℕ) : Option ℚ :=
  ndiv (100 * totalImpact t x z i) (maxImpact t x z)

/-- Concrete six-district table with strictly decreasing counts, so the
severities are the distinct values (10 - i)/10 and Jaipur is row 0. -/
def exT : Table :=
  [⟨"Jaipur", 10, 10, 10⟩, ⟨"Alwar", 9, 9, 9⟩, ⟨"Kota", 8, 8, 8⟩,
   ⟨"Ajmer", 7, 7, 7⟩, ⟨"Sikar", 6, 6, 6⟩, ⟨"Tonk", 5, 5, 5⟩]

/-- Concrete table whose Killed column is uniformly zero while the
other count columns are positive. -/
def degenT : Table :=
  [⟨"Jaipur", 5, 0, 3⟩, ⟨"Alwar", 2, 0, 1⟩]

/-- Concrete table that contains no row named Jaipur. -/
def noJT : Table :=
  [⟨"Alwar", 2, 1, 1⟩]

/-- Concrete police assignment on `exT`: 40 units for Jaipur (row 0),
one unit for each of the four priority rows, none elsewhere. -/
def xw : ℕ → ℕ :=
  fun i => if i = 0 then 40 else if i ≤ 4 then 1 else 0

/-- Concrete awareness assignment on `exT`: 30 campaigns for Jaipur
(row 0), none elsewhere. -/
def zw : ℕ → ℕ :=
  fun i => if i = 0 then 30 else 0

end OFS

namespace OFS

/-- Each entry of a count column is bounded by the column maximum. -/
lemma mem_le_colMax (f : Row → ℕ) {r : Row} :
    ∀ {t : Table}, r ∈ t → f r ≤ colMax f t := by
  intro t
  induction t with
  | nil => intro h; cases h
  | cons a l ih =>
    intro h
    have hc : colMax f (a :: l) = max (f a) (colMax f l) := rfl
    rcases List.mem_cons.mp h with h | h
    · rw [hc, h]; exact le_max_left _ _
    · rw [hc]; exact le_trans (ih h) (le_max_right _ _)

/-- A positive column maximum is attained by some row. -/
lemma colMax_mem (f : Row → ℕ) :
    ∀ {t : Table}, 0 < colMax f t → ∃ r ∈ t, f r = colMax f t := by
  intro t
  induction t with
  | nil => intro h; simp [colMax] at h
  | cons a l ih =>
    intro h
    have hc : colMax f (a :: l) = max (f a) (colMax f l) := rfl
    rcases le_total (colMax f l) (f a) with hle | hle
    · exact ⟨a, List.mem_cons_self a l, by rw [hc, max_eq_left hle]⟩
    · have hpos : 0 < colMax f l := by
        rw [hc, max_eq_right hle] at h; exact h
      obtain ⟨r, hr, he⟩ := ih hpos
      exact ⟨r, List.mem_cons_of_mem a hr, by rw [hc, max_eq_right hle, he]⟩

/-- Distributivity of the summed cost over the two resource columns. -/
lemma sum_map_linear (a b : ℕ) (x z : ℕ → ℕ) :
    ∀ l : List ℕ,
      (l.map fun i => a * x i + b * z i).sum
        = a * (l.map x).sum + b * (l.map z).sum := by
  intro l
  induction l with
  | nil => simp
  | cons i l ih => simp [ih]; ring

/-- Filtering away an element that does not occur leaves a list as is. -/
lemma filter_ne_eq_self {l : List ℕ} {j : ℕ} (hj : j ∉ l) :
    l.filter (fun i => i ≠ j) = l := by
  refine List.filter_eq_self.mpr ?_
  intro a ha
  simp only [decide_eq_true_eq]
  exact fun he => hj (he ▸ ha)

/-- On a duplicate-free list, filtering away a member drops exactly one
element. -/
lemma length_filter_ne {j : ℕ} :
    ∀ {l : List ℕ}, l.Nodup → j ∈ l →
      (l.filter (fun i => i ≠ j)).length = l.length - 1 := by
  intro l
  induction l with
  | nil => intro _ h; cases h
  | cons a l ih =>
    intro hnd hm
    have hal : a ∉ l := (List.nodup_cons.mp hnd).1
    have hndl : l.Nodup := (List.nodup_cons.mp hnd).2
    rcases List.mem_cons.mp hm with h | h
    · rw [← h] at hal ⊢
      have h1 : (j :: l).filter (fun i => i ≠ j) = l.filter (fun i => i ≠ j) := by
        simp [List.filter]
      rw [h1, filter_ne_eq_self hal]
      simp
    · have hja : a ≠ j := fun he => hal (he ▸ h)
      have h1 : (a :: l).filter (fun i => i ≠ j)
          = a :: l.filter (fun i => i ≠ j) := by
        simp [List.filter, hja]
      have hlen : 1 ≤ l.length := List.length_pos.mpr (List.ne_nil_of_mem h)
      rw [h1]
      simp only [List.length_cons, ih hndl h]
      omega

/-- The sorted position list is a permutation of the row positions. -/
lemma sortedIdx_perm (t : Table) : (sortedIdx t).Perm (List.range t.length) :=
  List.perm_insertionSort _ _

/-- The sorted position list has no duplicates. -/
lemma sortedIdx_nodup (t : Table) : (sortedIdx t).Nodup :=
  (sortedIdx_perm t).nodup_iff.mpr (List.nodup_range _)

/-- The top five list has no duplicates. -/
lemma top5_nodup (t : Table) : (top5 t).Nodup :=
  List.Nodup.sublist (List.take_sublist 5 _) (sortedIdx_nodup t)

/-- With at least five rows, the top five list has exactly five
entries. -/
lemma top5_length (t : Table) (h5 : 5 ≤ t.length) : (top5 t).length = 5 := by
  rw [top5, List.length_take, sortedIdx, List.length_insertionSort,
    List.length_range]
  exact min_eq_left h5

/-- Sorted positions of the concrete table `exT`: the counts decrease
along the table, so the descending order is the identity order. -/
lemma sortedIdx_exT : sortedIdx exT = [0, 1, 2, 3, 4, 5] := by
  norm_num [sortedIdx, exT, List.range_succ, List.insertionSort,
    List.orderedInsert, sevAt, sevQ, colMax]

/-- Top five of the concrete table `exT`. -/
lemma top5_exT : top5 exT = [0, 1, 2, 3, 4] := by
  rw [top5, sortedIdx_exT]
  rfl

/-- Priority set of the concrete table `exT`: the Jaipur row 0 is
dropped from the top five. -/
lemma top5x_exT : top5ExclJaipur exT 0 = [1, 2, 3, 4] := by
  rw [top5ExclJaipur, top5_exT]
  rfl

/-- The concrete assignment (`xw`, `zw`) satisfies every constraint of
the integer program on `exT`. -/
lemma exAlloc_feasible : FeasibleAlloc exT 0 xw zw := by
  refine ⟨by decide, by decide, by decide, ?_, ?_, by decide, by decide,
    by decide, by decide, by decide, by decide⟩
  · rw [top5x_exT]; decide
  · rw [top5x_exT]; decide

/-- Claim C1: the post-solve pipeline (lines 73-74) reads the variable
values into the allocation columns without ever inspecting the solver
status — result collection is the same function for every status, and
at an INFEASIBLE status it still populates both columns instead of
failing with an UnsolvableAllocationError. -/
theorem solver_status_never_checked :
    (∀ (t : Table) (v w : ℕ → ℤ) (s s' : LpStatus),
        collectResults t ⟨s, v, w⟩ = collectResults t ⟨s', v, w⟩)
    ∧ collectResults exT ⟨LpStatus.Infeasible, fun i => (i : ℤ), fun _ => 7⟩
        = ([0, 1, 2, 3, 4, 5], [7, 7, 7, 7, 7, 7]) := by
  refine ⟨fun _ _ _ _ _ => rfl, ?_⟩
  decide

/-- Claim C2: on a table whose Killed column is uniformly zero, the
severity scorer does not fail before model construction: the column
maximum is 0 and the scorer produces a NaN severity (modelled `none`)
for every row instead of raising a DegenerateInputError. -/
theorem zero_killed_column_not_rejected :
    colMax Row.killed degenT = 0
    ∧ degenT.map (weightedSeverity degenT) = [none, none] := by
  refine ⟨rfl, ?_⟩
  norm_num [degenT, weightedSeverity, ndiv, colMax]

/-- Claim C3: with non-negative counts and strictly positive column
maxima, every severity equals the weighted formula
0.5*(killed/max) + 0.3*(injured/max) + 0.2*(accidents/max), lies in
[0, 1], and each of the three sub-score dimensions attains the value 1
on some district. -/
theorem severity_formula_and_bounds (t : Table)
    (hk : 0 < colMax Row.killed t) (hi : 0 < colMax Row.injured t)
    (ha : 0 < colMax Row.accidents t) :
    (∀ r ∈ t, weightedSeverity t r = some (sevQ t r)
      ∧ 0 ≤ sevQ t r ∧ sevQ t r ≤ 1)
    ∧ (∃ r ∈ t, (r.killed : ℚ) / (colMax Row.killed t : ℚ) = 1)
    ∧ (∃ r ∈ t, (r.injured : ℚ) / (colMax Row.injured t : ℚ) = 1)
    ∧ (∃ r ∈ t, (r.accidents : ℚ) / (colMax Row.accidents t : ℚ) = 1) := by
  have hk0 : (0 : ℚ) < (colMax Row.killed t : ℚ) := by exact_mod_cast hk
  have hi0 : (0 : ℚ) < (colMax Row.injured t : ℚ) := by exact_mod_cast hi
  have ha0 : (0 : ℚ) < (colMax Row.accidents t : ℚ) := by exact_mod_cast ha
  refine ⟨?_, ?_, ?_, ?_⟩
  · intro r hr
    refine ⟨?_, ?_, ?_⟩
    · simp only [weightedSeverity, ndiv]
      rw [if_neg hk0.ne', if_neg hi0.ne', if_neg ha0.ne']
      rfl
    · unfold sevQ
      positivity
    · have b1 : (r.killed : ℚ) / (colMax Row.killed t : ℚ) ≤ 1 :=
        (div_le_one hk0).mpr (by exact_mod_cast mem_le_colMax Row.killed hr)
      have b2 : (r.injured : ℚ) / (colMax Row.injured t : ℚ) ≤ 1 :=
        (div_le_one hi0).mpr (by exact_mod_cast mem_le_colMax Row.injured hr)
      have b3 : (r.accidents : ℚ) / (colMax Row.accidents t : ℚ) ≤ 1 :=
        (div_le_one ha0).mpr (by exact_mod_cast mem_le_colMax Row.accidents hr)
      have n1 : 0 ≤ (r.killed : ℚ) / (colMax Row.killed t : ℚ) := by positivity
      have n2 : 0 ≤ (r.injured : ℚ) / (colMax Row.injured t : ℚ) := by positivity
      have n3 : 0 ≤ (r.accidents : ℚ) / (colMax Row.accidents t : ℚ) := by
        positivity
      unfold sevQ
      linarith
  · obtain ⟨r, hr, he⟩ := colMax_mem Row.killed hk
    exact ⟨r, hr, by rw [he]; exact div_self hk0.ne'⟩
  · obtain ⟨r, hr, he⟩ := colMax_mem Row.injured hi
    exact ⟨r, hr, by rw [he]; exact div_self hi0.ne'⟩
  · obtain ⟨r, hr, he⟩ := colMax_mem Row.accidents ha
    exact ⟨r, hr, by rw [he]; exact div_self ha0.ne'⟩

/-- Witness for C3 at the concrete table `exT`. -/
theorem severity_formula_and_bounds_witness :
    0 < colMax Row.killed exT
    ∧ ((∀ r ∈ exT, weightedSeverity exT r = some (sevQ exT r)
        ∧ 0 ≤ sevQ exT r ∧ sevQ exT r ≤ 1)
      ∧ (∃ r ∈ exT, (r.killed : ℚ) / (colMax Row.killed exT : ℚ) = 1)
      ∧ (∃ r ∈ exT, (r.injured : ℚ) / (colMax Row.injured exT : ℚ) = 1)
      ∧ (∃ r ∈ exT, (r.accidents : ℚ) / (colMax Row.accidents exT : ℚ) = 1)) :=
  ⟨by decide, severity_formula_and_bounds exT (by decide) (by decide) (by decide)⟩

/-- Claim C5: every feasible allocation keeps the Jaipur police and
awareness variables inside their individual [min, max] bounds; those
intervals imply the general per-district caps (the special rules are
layered on top, never a relaxation) and are strictly tighter than
them; and the Jaipur row is never subject to the priority-set rule. -/
theorem exempt_bounds_layered :
    (∀ (t : Table) (j : ℕ) (x z : ℕ → ℕ), FeasibleAlloc t j x z →
        (Jaipur_Min_Police ≤ x j ∧ x j ≤ Jaipur_Max_Police)
        ∧ (Jaipur_Min_Awareness ≤ z j ∧ z j ≤ Jaipur_Max_Awareness))
    ∧ (∀ p : ℕ, Jaipur_Min_Police ≤ p → p ≤ Jaipur_Max_Police →
        p ≤ Max_Police_Per_District)
    ∧ (∀ w : ℕ, Jaipur_Min_Awareness ≤ w → w ≤ Jaipur_Max_Awareness →
        w ≤ Max_Awareness_Per_District)
    ∧ (∃ p : ℕ, p ≤ Max_Police_Per_District ∧ ¬ Jaipur_Min_Police ≤ p)
    ∧ (∃ w : ℕ, w ≤ Max_Awareness_Per_District ∧ ¬ Jaipur_Min_Awareness ≤ w)
    ∧ (∀ (t : Table) (j : ℕ), j ∉ top5ExclJaipur t j) := by
  refine ⟨?_, ?_, ?_, ⟨0, by decide, by decide⟩, ⟨0, by decide, by decide⟩, ?_⟩
  · intro t j x z h
    exact ⟨⟨h.jaipur_police_min, h.jaipur_police_max⟩,
      ⟨h.jaipur_awareness_min, h.jaipur_awareness_max⟩⟩
  · intro p _ h2
    exact h2
  · intro w _ h2
    exact h2
  · intro t j
    simp [top5ExclJaipur, List.mem_filter]

/-- Witness for C5 at the concrete feasible allocation on `exT`. -/
theorem exempt_bounds_layered_witness :
    (Jaipur_Min_Police ≤ xw 0 ∧ xw 0 ≤ Jaipur_Max_Police)
    ∧ (Jaipur_Min_Awareness ≤ zw 0 ∧ zw 0 ≤ Jaipur_Max_Awareness) :=
  exempt_bounds_layered.1 exT 0 xw zw exAlloc_feasible

/-- Claim C6: every allocation satisfying the model constraints
satisfies the exact integer budget inequality
cost_x * (total police) + cost_z * (total awareness) ≤ budget. -/
theorem budget_constraint_exact (t : Table) (j : ℕ) (x z : ℕ → ℕ)
    (h : FeasibleAlloc t j x z) :
    cost_x * idxSum t x + cost_z * idxSum t z ≤ budget := by
  have heq : idxSum t (fun i => cost_x * x i + cost_z * z i)
      = cost_x * idxSum t x + cost_z * idxSum t z :=
    sum_map_linear cost_x cost_z x z (List.range t.length)
  rw [← heq]
  exact h.budget_le

/-- Witness for C6 at the concrete feasible allocation on `exT`. -/
theorem budget_constraint_exact_witness :
    cost_x * idxSum exT xw + cost_z * idxSum exT zw ≤ budget :=
  budget_constraint_exact exT 0 xw zw exAlloc_feasible

/-- Claim C7: every allocation satisfying the model constraints gives
each priority-set district (top five by severity with the Jaipur row
removed) a combined allocation between 1 and the priority cap. -/
theorem priority_set_combined_bounds (t : Table) (j : ℕ) (x z : ℕ → ℕ)
    (h : FeasibleAlloc t j x z) :
    ∀ i ∈ top5ExclJaipur t j, 1 ≤ x i + z i ∧ x i + z i ≤ District_Limit :=
  fun i hi => ⟨h.top5_min i hi, h.top5_max i hi⟩

/-- Witness for C7 at the concrete feasible allocation on `exT`. -/
theorem priority_set_combined_bounds_witness :
    1 ≤ xw 1 + zw 1 ∧ xw 1 + zw 1 ≤ District_Limit :=
  priority_set_combined_bounds exT 0 xw zw exAlloc_feasible 1
    (by rw [top5x_exT]; decide)

/-- Claim C8: when no row of the table is named Jaipur, model
construction fails at the required lookup and produces no model. -/
theorem missing_exempt_fails_build (t : Table)
    (h : ∀ r ∈ t, r.district ≠ "Jaipur") :
    buildModel t = Except.error BuildError.infeasibleSpecificationError := by
  have hj : jaipurIdx t = none := by
    refine List.findIdx?_eq_none_iff.mpr ?_
    intro r hr
    simpa using h r hr
  simp [buildModel, hj]

/-- Witness for C8 at the concrete Jaipur-free table `noJT`. -/
theorem missing_exempt_fails_build_witness :
    (∀ r ∈ noJT, r.district ≠ "Jaipur")
    ∧ buildModel noJT = Except.error BuildError.infeasibleSpecificationError :=
  ⟨by decide, missing_exempt_fails_build noJT (by decide)⟩

/-- Claim C9: when every allocation is zero, the maximal total impact
is 0 and the aggregator divides by it, yielding a NaN normalized
impact (modelled `none`) for every district instead of failing with a
DegenerateResultError. -/
theorem all_zero_allocation_divides_by_zero :
    maxImpact exT (fun _ => 0) (fun _ => 0) = 0
    ∧ (List.range exT.length).map (normalizedImpact exT (fun _ => 0) (fun _ => 0))
        = List.replicate 6 none := by
  have hlen : exT.length = 6 := rfl
  have h0 : ∀ i, totalImpact exT (fun _ => 0) (fun _ => 0) i = 0 := by
    intro i
    simp [totalImpact]
  have hm : maxImpact exT (fun _ => 0) (fun _ => 0) = 0 := by
    simp [maxImpact, hlen, List.range_succ, h0]
  refine ⟨hm, ?_⟩
  simp [normalizedImpact, ndiv, hm, h0, hlen, List.range_succ, List.replicate]

/-- Claim C10: the priority set is the top five by severity with the
Jaipur row filtered out afterwards: each of its members is one of the
top five, and when the Jaipur row itself ranks in the top five the
priority set has only four members — no further district is promoted
into it. -/
theorem priority_set_without_promotion (t : Table) (j : ℕ)
    (h5 : 5 ≤ t.length) (_hj : jaipurIdx t = some j) :
    (∀ i ∈ top5ExclJaipur t j, i ∈ top5 t)
    ∧ (j ∈ top5 t → (top5ExclJaipur t j).length = 4)
    ∧ (j ∉ top5 t → (top5ExclJaipur t j).length = 5) := by
  refine ⟨?_, ?_, ?_⟩
  · intro i hi
    exact (List.mem_filter.mp hi).1
  · intro hm
    calc (top5ExclJaipur t j).length
        = (top5 t).length - 1 := length_filter_ne (top5_nodup t) hm
      _ = 4 := by rw [top5_length t h5]
  · intro hm
    have he : top5ExclJaipur t j = top5 t := filter_ne_eq_self hm
    rw [he, top5_length t h5]

/-- Witness for C10 at the concrete table `exT`, whose Jaipur row has
the highest severity and therefore ranks in the top five. -/
theorem priority_set_without_promotion_witness :
    5 ≤ exT.length ∧ jaipurIdx exT = some 0
    ∧ (top5ExclJaipur exT 0).length = 4 :=
  ⟨by decide, by decide,
    (priority_set_without_promotion exT 0 (by decide) (by decide)).2.1
      (by rw [top5_exT]; decide)⟩

end OFS
